import Mathlib

/-!
Verification of the Tok4Plug/dashbord monitor against its specification.

The development shallowly embeds the monitor's data model and operations:
* `BotRec` and its state methods embed the `Bot` model of `models.py`
  (`mark_active`, `mark_reserve`, `mark_inactive`, `increment_failure`,
  `reset_failures`); timestamps are modelled as natural numbers and
  `datetime.utcnow()` becomes an explicit `now` argument.
* the database is a `List BotRec`; `get_ativos` / `get_reserva` embed
  `get_bots_from_db` of `app.py` (filter by status, ordered by id
  ascending), and `update_bot_in_db` embeds an ORM mutation of one row.
* the signal checkers of `utils.py` (`check_token`, `check_link`,
  `check_probe`, `check_webhook`) are embedded over an explicit model of
  the HTTP response they see, so that timeouts / connection errors /
  non-2xx statuses / malformed bodies are all concrete inputs.
* the aggregate decisions of `utils.diagnosticar_bot` and
  `app._run_checks_once`, the confirmation protocol of
  `app.diagnosticar_bot`, the alert gate and the per-bot sweep body of
  `app.monitor_loop`, and the `force_swap` route are embedded as pure
  functions.
Definitions whose doc comment says they follow the specification's words
(rather than the source) exist only to be compared with the source-derived
definitions.
-/

/-- Embeds the `Bot` row of `models.py` (the fields the monitor core reads
and writes).  `status` is one of "ativo" | "reserva" | "inativo". -/
structure BotRec where
  id : Nat
  name : String
  status : String
  failures : Nat
  last_ok : Option Nat
  last_reason : Option String
  updated_at : Nat
  deriving DecidableEq, Repr

/-- Embeds `Bot.mark_active`: status := "ativo", failures := 0,
last_ok := now, touch(). -/
def mark_active (b : BotRec) (now : Nat) : BotRec :=
  { b with status := "ativo", failures := 0, last_ok := some now, updated_at := now }

/-- Embeds `Bot.mark_reserve`: status := "reserva", failures := 0, touch(). -/
def mark_reserve (b : BotRec) (now : Nat) : BotRec :=
  { b with status := "reserva", failures := 0, updated_at := now }

/-- Embeds `Bot.mark_inactive`: status := "inativo", optionally stores the
reason, touch().  Note: it does not touch `failures`. -/
def mark_inactive (b : BotRec) (reason : Option String) (now : Nat) : BotRec :=
  { b with status := "inativo",
           last_reason := match reason with
             | some r => some r
             | none => b.last_reason,
           updated_at := now }

/-- Embeds `Bot.increment_failure`: failures := failures + 1, touch(). -/
def increment_failure (b : BotRec) (now : Nat) : BotRec :=
  { b with failures := b.failures + 1, updated_at := now }

/-- Embeds `Bot.reset_failures`: failures := 0, last_ok := now, touch(). -/
def reset_failures (b : BotRec) (now : Nat) : BotRec :=
  { b with failures := 0, last_ok := some now, updated_at := now }

/-- Embeds the `PUT /api/bots/<id>` body of `app.update_bot`: each field is
replaced when present in the payload and kept otherwise.  `failures` is not
among the fields the route writes. -/
structure UpdatePayload where
  name : Option String
  token : Option String
  redirect_url : Option String
  status : Option String
  deriving DecidableEq, Repr

/-- Embeds the mutation performed by `app.update_bot` on the row
(`bot.name = data.get("name", bot.name)` and so on for token,
redirect_url, status). -/
def update_bot_route (b : BotRec) (data : UpdatePayload) : BotRec :=
  { b with name := data.name.getD b.name,
           status := data.status.getD b.status }

/-- Insertion of a row into a list kept ordered by ascending id; helper
for `sortById`. -/
def insertById (b : BotRec) : List BotRec → List BotRec
  | [] => [b]
  | c :: cs => if b.id ≤ c.id then b :: c :: cs else c :: insertById b cs

/-- The `ORDER BY id ASC` of `get_bots_from_db` in `app.py`, as an
insertion sort by id. -/
def sortById : List BotRec → List BotRec
  | [] => []
  | b :: bs => insertById b (sortById bs)

/-- Embeds `Bot.query.filter_by(status="ativo").order_by(Bot.id.asc())`
from `app.get_bots_from_db`. -/
def get_ativos (db : List BotRec) : List BotRec :=
  sortById (db.filter (fun b => b.status == "ativo"))

/-- Embeds `Bot.query.filter_by(status="reserva").order_by(Bot.id.asc())`
from `app.get_bots_from_db`. -/
def get_reserva (db : List BotRec) : List BotRec :=
  sortById (db.filter (fun b => b.status == "reserva"))

/-- Embeds an in-place ORM mutation of the row with the given id followed
by a successful commit: every row with that id is mapped through `f`. -/
def update_bot_in_db (db : List BotRec) (i : Nat) (f : BotRec → BotRec) : List BotRec :=
  db.map (fun b => if b.id == i then f b else b)

/-- Model of the HTTP outcome seen by `check_token` (`GET /getMe`):
either a raised exception (timeout, connection failure), or a status code
with the decoded body.  `body = none` models a malformed body on which
`r.json()` raises; `username = none` models a 200/ok body whose
`result.username` access raises. -/
inductive TokenResp where
  | exn (msg : String)
  | resp (status : Nat) (body : Option (Bool × Option String))
  deriving DecidableEq, Repr

/-- Embeds `utils.check_token`. -/
def check_token (token : String) (r : TokenResp) : Bool × String × Option String :=
  if token = "" then (false, "Token vazio", none)
  else
    match r with
    | .exn e => (false, "Exceção: " ++ e, none)
    | .resp status body =>
      if status == 200 then
        match body with
        | none => (false, "Exceção: json decode", none)
        | some (okFlag, username) =>
          if okFlag then
            match username with
            | some u => (true, "Token válido", some u)
            | none => (false, "Exceção: KeyError", none)
          else (false, "Token inválido", none)
      else (false, "Erro HTTP " ++ toString status, none)

/-- Model of the HTTP outcome seen by `check_link` (a GET on the
redirect url); the body is never inspected. -/
inductive LinkResp where
  | exn (msg : String)
  | resp (status : Nat)
  deriving DecidableEq, Repr

/-- Embeds `utils.check_link`. -/
def check_link (url : String) (r : LinkResp) : Bool × String :=
  if url = "" then (false, "URL não definida")
  else
    match r with
    | .exn e => (false, "Exceção: " ++ e)
    | .resp status =>
      if 200 ≤ status ∧ status < 400 then (true, "HTTP " ++ toString status)
      else (false, "HTTP " ++ toString status)

/-- Model of the HTTP outcome seen by `check_probe`
(`POST /sendMessage`): `body = none` models a body on which `r.json()`
raises; otherwise `body = some ok` is the truthiness of the decoded
body's "ok" field; `text` is the raw response text used in the failure
reason. -/
inductive ProbeResp where
  | exn (msg : String)
  | resp (status : Nat) (body : Option Bool) (text : String)
  deriving DecidableEq, Repr

/-- Embeds `utils.check_probe`; the verdict is `none` (indeterminate,
Python `None`) when the probe is administratively disabled. -/
def check_probe (token chat_id : String) (r : ProbeResp) : Option Bool × String :=
  if token = "" ∨ chat_id = "" then (none, "Probe desativado (token/chat_id ausente)")
  else
    match r with
    | .exn e => (some false, "Exceção: " ++ e)
    | .resp status body t =>
      if status == 200 then
        match body with
        | none => (some false, "Exceção: json decode")
        | some ok =>
          if ok then (some true, "Mensagem entregue")
          else (some false, "HTTP " ++ toString status ++ " / " ++ t)
      else (some false, "HTTP " ++ toString status ++ " / " ++ t)

/-- The decoded `result` of `/getWebhookInfo`, following Python
truthiness: `url = ""` and `last_error_date = 0` model absent/falsy
fields, `pending_update_count` defaults to 0 when absent. -/
structure WebhookInfo where
  url : String
  last_error_date : Nat
  last_error_message : String
  pending_update_count : Nat
  deriving DecidableEq, Repr

/-- The `details` channel returned by `check_webhook`: `{}` on the early
error paths, the raw decoded body when its ok-flag is falsy, and the
`result` object afterwards. -/
inductive WebhookDetails where
  | empty
  | rawBody (okFlag : Bool) (result : WebhookInfo)
  | info (i : WebhookInfo)
  deriving DecidableEq, Repr

/-- Model of the HTTP outcome seen by `check_webhook`
(`GET /getWebhookInfo`); `body = none` models a body on which `r.json()`
raises. -/
inductive WebhookResp where
  | exn (msg : String)
  | resp (status : Nat) (body : Option (Bool × WebhookInfo))
  deriving DecidableEq, Repr

/-- Embeds `utils.check_webhook`. -/
def check_webhook (token : String) (r : WebhookResp) : Bool × String × WebhookDetails :=
  if token = "" then (false, "Token vazio", .empty)
  else
    match r with
    | .exn e => (false, "Exceção: " ++ e, .empty)
    | .resp status body =>
      if status ≠ 200 then (false, "Erro HTTP " ++ toString status, .empty)
      else
        match body with
        | none => (false, "Exceção: json decode", .empty)
        | some (okFlag, result) =>
          if !okFlag then (false, "Resposta inválida da API", .rawBody okFlag result)
          else
            let info := result
            if info.url ≠ "" then
              if info.last_error_date ≠ 0 then
                (false, "Erro: " ++ info.last_error_message, .info info)
              else if info.pending_update_count > 0 then
                (false, toString info.pending_update_count ++ " updates pendentes", .info info)
              else (true, "Webhook ativo e saudável", .info info)
            else (false, "Nenhum webhook configurado", .info info)

set_option linter.unusedVariables false in
/-- Embeds the aggregate decision of `utils.diagnosticar_bot`:
`decision_ok = token_ok and webhook_ok and (probe_ok is True or probe_ok
is None)`.  `url_ok` is computed by the source but does not appear in the
conjunction. -/
def diag_decision (token_ok url_ok webhook_ok : Bool) (probe_ok : Option Bool) : Bool :=
  token_ok && webhook_ok && (probe_ok == some true || probe_ok == none)

/-- Embeds the aggregate decision of `app._run_checks_once`:
`decision_ok = bool(token_ok and (probe_ok is True or probe_ok is
None))`; neither `url_ok` nor `webhook_ok` appears in it. -/
def run_checks_decision (token_ok : Bool) (probe_ok : Option Bool) : Bool :=
  token_ok && (probe_ok == some true || probe_ok == none)

/-- One diagnostic pass of `app._run_checks_once`, abstracted to its
aggregate verdict plus a tag identifying which concrete report it is. -/
structure Diag where
  decision_ok : Bool
  tag : Nat
  deriving DecidableEq, Repr

/-- The `last_diag["decision_ok"] = False` write at the end of
`app.diagnosticar_bot`. -/
def force_down (d : Diag) : Diag :=
  { d with decision_ok := false }

/-- The extra-rounds loop of `app.diagnosticar_bot`
(`for _ in range(max(0, RETRY_CHECKS_PER_PASS - 1))`): the first passing
extra round is returned; exhaustion forces the last report down. -/
def confirm_extra : List Diag → Diag → Diag
  | [], last => force_down last
  | d :: rest, _ => if d.decision_ok then d else confirm_extra rest d

/-- Embeds `app.diagnosticar_bot`: `p1` and `p2` are the outcomes of the
first and (after the jittered delay) second full decision pass, `extras`
the outcomes of the optional extra confirmation rounds in order. -/
def diagnosticar_bot (p1 p2 : Diag) (extras : List Diag) : Diag :=
  if p1.decision_ok then p1
  else if p2.decision_ok then p2
  else confirm_extra extras p2

/-- The per-bot `alert_state` entry of `app.monitor_loop`
(`{"last_fail_count": ..., "last_alert_ts": ...}`). -/
structure AlertSt where
  last_fail_count : Nat
  last_alert_ts : Option Nat
  deriving DecidableEq, Repr

/-- Embeds the `should_alert` computation of `app.monitor_loop`:
`fail_cnt != last_fail_seen or fail_cnt == FAIL_THRESHOLD`, with
`last_fail_seen` defaulting to 0 when no entry exists. -/
def should_alert (st : Option AlertSt) (fail_cnt threshold : Nat) : Bool :=
  let last_fail_seen := (st.map (fun s => s.last_fail_count)).getD 0
  fail_cnt != last_fail_seen || fail_cnt == threshold

/-- Number of "down" alerts `app.monitor_loop` sends over a run of
consecutive failing sweeps for one bot that stays under observation:
`n` sweeps remain, `cnt` is the failure count produced by the next
sweep's increment, `now` the sweep time (advancing by `interval`), `st`
the current `alert_state` entry; after each sweep the source overwrites
the entry with the new count and timestamp. -/
def alerts_in_fail_run (threshold interval : Nat) :
    Nat → Nat → Nat → Option AlertSt → Nat
  | 0, _, _, _ => 0
  | n + 1, cnt, now, st =>
    (if should_alert st cnt threshold then 1 else 0) +
      alerts_in_fail_run threshold interval n (cnt + 1) (now + interval)
        (some ⟨cnt, some now⟩)

/-- Follows the claim's words (spec §4.4), for comparison: an alert fires
on the first confirmed failure and then not again until the cooldown has
elapsed since the last alert or the count reaches the threshold. -/
def spec_should_alert (st : Option AlertSt) (fail_cnt threshold now cooldown : Nat) : Bool :=
  match st with
  | none => true
  | some s =>
    match s.last_alert_ts with
    | none => true
    | some t => decide (t + cooldown ≤ now) || fail_cnt == threshold

/-- Follows the claim's words, for comparison: alert count over a run of
consecutive failing sweeps under the cooldown policy (the debounce entry
keeps its last-alert timestamp when no alert fires). -/
def spec_alerts_in_fail_run (threshold cooldown interval : Nat) :
    Nat → Nat → Nat → Option AlertSt → Nat
  | 0, _, _, _ => 0
  | n + 1, cnt, now, st =>
    if spec_should_alert st cnt threshold now cooldown then
      1 + spec_alerts_in_fail_run threshold cooldown interval n (cnt + 1)
            (now + interval) (some ⟨cnt, some now⟩)
    else
      spec_alerts_in_fail_run threshold cooldown interval n (cnt + 1)
        (now + interval) st

/-- Embeds the per-bot body of one sweep of `app.monitor_loop` after the
diagnostic (`decision = diag["decision_ok"]`), for a bot `b` taken from
the `ativos` list: on success `reset_failures`; on failure
`increment_failure`, then — unless inside the startup grace window —
when the incremented count reaches `FAIL_THRESHOLD`, `mark_reserve` the
bot, re-query the reserva list and `mark_active` its first element if
any.  Returns the updated store and whether the failover branch ran. -/
def sweep_step (db : List BotRec) (b : BotRec) (decision in_grace : Bool)
    (threshold now : Nat) : List BotRec × Bool :=
  if decision then
    (update_bot_in_db db b.id (fun x => reset_failures x now), false)
  else
    let db1 := update_bot_in_db db b.id (fun x => increment_failure x now)
    if in_grace then (db1, false)
    else if threshold ≤ b.failures + 1 then
      let db2 := update_bot_in_db db1 b.id (fun x => mark_reserve x now)
      (match get_reserva db2 with
       | [] => db2
       | novo :: _ => update_bot_in_db db2 novo.id (fun x => mark_active x now), true)
    else (db1, false)

/-- Result channel of the `POST /api/bots/<id>/force_swap` route:
HTTP 404, HTTP 409 ("Não há bots na reserva"), or HTTP 200 with the two
bots involved. -/
inductive SwapResult where
  | notFound
  | noReserve
  | swapped (fromId toId : Nat)
  deriving DecidableEq, Repr

/-- Embeds `app.force_swap`: look up the bot, `mark_reserve` it and
commit, re-query the reserva list, answer 409 if it is empty, otherwise
`mark_active` its first element. -/
def force_swap (db : List BotRec) (bot_id now : Nat) : SwapResult × List BotRec :=
  match db.find? (fun b => b.id == bot_id) with
  | none => (.notFound, db)
  | some atual =>
    let db1 := update_bot_in_db db bot_id (fun x => mark_reserve x now)
    match get_reserva db1 with
    | [] => (.noReserve, db1)
    | novo :: _ =>
      (.swapped atual.id novo.id, update_bot_in_db db1 novo.id (fun x => mark_active x now))

/-- Embeds the end-of-sweep sleep of `app.monitor_loop`:
`time.sleep(max(1.0, interval - elapsed))`, with seconds as rationals. -/
def sweep_sleep_seconds (interval elapsed : Rat) : Rat :=
  max 1 (interval - elapsed)

/-- Follows the claim's words (spec §4.6), for comparison: sleep for
`max(0, interval - elapsed)`. -/
def spec_sleep_seconds (interval elapsed : Rat) : Rat :=
  max 0 (interval - elapsed)

/-- A checker verdict as the specification describes it. -/
inductive Verdict where
  | ok
  | fail
  | indet
  deriving DecidableEq, Repr

set_option linter.unusedVariables false in
/-- Follows the claim's words (spec §4.2 `full_strict`), for comparison:
ok = credential OK and webhook OK and reachability OK, with INDETERMINATE
treated as a pass for any checker in the conjunction; the probe verdict
does not participate. -/
def spec_full_strict (credential webhook reachability probe : Verdict) : Bool :=
  (credential != .fail) && (webhook != .fail) && (reachability != .fail)

/-- Follows the claim's words (spec §4.1 webhook checker), for
comparison: FAIL exactly when (a) the registered URL differs from the
expected target and matching is required, or (b) a registered error
occurred within the recency window ending at `now`, or (c) the pending
backlog exceeds the ceiling. -/
def spec_webhook_fail (match_required : Bool) (expected : String)
    (window now ceiling : Nat) (info : WebhookInfo) : Bool :=
  (match_required && info.url != expected) ||
  (info.last_error_date != 0 && decide (now - info.last_error_date ≤ window)) ||
  decide (ceiling < info.pending_update_count)

lemma mem_insertById {x b : BotRec} {l : List BotRec} :
    x ∈ insertById b l ↔ x = b ∨ x ∈ l := by
  induction l with
  | nil => simp [insertById]
  | cons c cs ih =>
    by_cases h : b.id ≤ c.id
    · simp [insertById, h]
    · simp [insertById, h, ih]
      tauto

lemma mem_sortById {x : BotRec} {l : List BotRec} : x ∈ sortById l ↔ x ∈ l := by
  induction l with
  | nil => simp [sortById]
  | cons b bs ih => simp [sortById, mem_insertById, ih]

/-- The head of a list produced by the insertion sort has minimal id. -/
def headIdMin : List BotRec → Prop
  | [] => True
  | h :: t => ∀ x ∈ h :: t, h.id ≤ x.id

lemma headIdMin_insertById {b : BotRec} {l : List BotRec} (hl : headIdMin l) :
    headIdMin (insertById b l) := by
  cases l with
  | nil =>
    intro x hx
    simp [insertById] at hx
    simp [hx]
  | cons c cs =>
    by_cases h : b.id ≤ c.id
    · simp only [insertById, if_pos h]
      intro x hx
      rcases List.mem_cons.mp hx with rfl | hx
      · exact Nat.le_refl _
      · exact Nat.le_trans h (hl x hx)
    · simp only [insertById, if_neg h]
      intro x hx
      rcases List.mem_cons.mp hx with rfl | hx
      · exact Nat.le_refl _
      · rcases mem_insertById.mp hx with rfl | hx
        · exact Nat.le_of_lt (Nat.lt_of_not_le h)
        · exact hl x (List.mem_cons_of_mem _ hx)

lemma headIdMin_sortById (l : List BotRec) : headIdMin (sortById l) := by
  induction l with
  | nil => trivial
  | cons b bs ih => exact headIdMin_insertById ih

/-- Characterization of the head of `get_reserva`: it is a standby row of
the store whose id is minimal among all standby rows. -/
lemma get_reserva_head {db : List BotRec} {novo : BotRec}
    (h : (get_reserva db).head? = some novo) :
    novo ∈ db ∧ novo.status = "reserva" ∧
      ∀ x ∈ db, x.status = "reserva" → novo.id ≤ x.id := by
  have hmin : headIdMin (get_reserva db) := by
    unfold get_reserva
    exact headIdMin_sortById _
  have hmemS : novo ∈ get_reserva db := by
    rcases hcons : get_reserva db with _ | ⟨n, t⟩
    · rw [hcons] at h; simp at h
    · rw [hcons] at h
      simp only [List.head?_cons, Option.some.injEq] at h
      simp [h]
  have hmin2 : ∀ x ∈ get_reserva db, novo.id ≤ x.id := by
    rcases hcons : get_reserva db with _ | ⟨n, t⟩
    · rw [hcons] at h; simp at h
    · rw [hcons] at h hmin
      simp only [List.head?_cons, Option.some.injEq] at h
      intro x hx
      rw [← h]
      exact hmin x hx
  have hmemS' : novo ∈ sortById (db.filter (fun b => b.status == "reserva")) := hmemS
  have hnf : novo ∈ db.filter (fun b => b.status == "reserva") := mem_sortById.mp hmemS'
  have hmem := List.mem_of_mem_filter hnf
  have hst : novo.status = "reserva" := by simpa using List.of_mem_filter hnf
  refine ⟨hmem, hst, fun x hx hxst => ?_⟩
  have hxf : x ∈ db.filter (fun b => b.status == "reserva") :=
    List.mem_filter.mpr ⟨hx, by simp [hxst]⟩
  have hxs : x ∈ sortById (db.filter (fun b => b.status == "reserva")) := mem_sortById.mpr hxf
  exact hmin2 x hxs

lemma mem_update_of_mem {y : BotRec} {db : List BotRec} {i : Nat} {f : BotRec → BotRec}
    (hy : y ∈ db) :
    (if y.id == i then f y else y) ∈ update_bot_in_db db i f :=
  List.mem_map_of_mem _ hy

lemma mem_update_cases {x : BotRec} {db : List BotRec} {i : Nat} {f : BotRec → BotRec}
    (hx : x ∈ update_bot_in_db db i f) :
    ∃ y ∈ db, (y.id = i ∧ x = f y) ∨ (y.id ≠ i ∧ x = y) := by
  rcases List.mem_map.mp hx with ⟨y, hy, hxy⟩
  refine ⟨y, hy, ?_⟩
  by_cases h : y.id = i
  · left; exact ⟨h, by rw [← hxy]; simp [h]⟩
  · right
    refine ⟨h, ?_⟩
    rw [← hxy]
    simp [h]

lemma update_status_map {db : List BotRec} {i : Nat} {f : BotRec → BotRec}
    (hf : ∀ x, (f x).status = x.status) :
    (update_bot_in_db db i f).map (fun x => x.status) = db.map (fun x => x.status) := by
  unfold update_bot_in_db
  rw [List.map_map]
  refine List.map_congr_left (fun b _ => ?_)
  by_cases h : b.id = i <;> simp [h, hf]

/-- C1, counterexample: with credential OK, webhook OK, reachability FAIL
and probe OK the source decision (`utils.diagnosticar_bot`) is `true`,
while the claim's `full_strict` conjunction — which requires the
reachability verdict to be OK — is `false`.  The source never consults
the reachability result in the conjunction. -/
theorem C1_counterexample :
    diag_decision true false true (some true) = true ∧
    spec_full_strict .ok .ok .fail .ok = false := by
  decide

/-- C1, amended: the aggregate decision of `utils.diagnosticar_bot` is
`token_ok AND webhook_ok AND (probe verdict is not FAIL)`: the
reachability verdict is not part of the conjunction, a probe FAIL blocks
the verdict, and an INDETERMINATE probe passes; the variant in
`app._run_checks_once` additionally drops the webhook conjunct.  In
particular credential OK, webhook OK, reachability OK, probe
INDETERMINATE gives ok = true under both decisions. -/
theorem C1_amended :
    (∀ (t u w : Bool) (p : Option Bool),
        diag_decision t u w p = (t && w && !(p == some false))) ∧
    (∀ (t : Bool) (p : Option Bool),
        run_checks_decision t p = (t && !(p == some false))) ∧
    diag_decision true true true none = true ∧
    run_checks_decision true none = true := by
  refine ⟨?_, ?_, by decide, by decide⟩
  · intro t u w p
    rcases p with _ | b
    · simp [diag_decision]
    · cases b <;> simp [diag_decision]
  · intro t p
    rcases p with _ | b
    · simp [run_checks_decision]
    · cases b <;> simp [run_checks_decision]

/-- C3, counterexample: three standbys whose last-updated timestamps are
t1 = 10 < t2 = 20 < t3 = 30, held by ids 3, 2, 1 respectively.  The claim
says the holder of t1 (id 3) is promoted first; the source's reserva
queue is ordered by id ascending only, so its head — the bot the monitor
and `force_swap` promote — is id 1, the one with the **newest**
last-updated timestamp. -/
theorem C3_counterexample :
    (get_reserva [⟨1, "a", "reserva", 0, none, none, 30⟩,
        ⟨2, "b", "reserva", 0, none, none, 20⟩,
        ⟨3, "c", "reserva", 0, none, none, 10⟩]).head? =
      some ⟨1, "a", "reserva", 0, none, none, 30⟩ := by
  decide

/-- C3, amended: standby selection is deterministic, but the key is the
id, not the last-updated timestamp: the promoted standby is the row in
state "reserva" with the lowest id, regardless of `updated_at`. -/
theorem C3_amended (db : List BotRec) (novo : BotRec)
    (h : (get_reserva db).head? = some novo) :
    novo ∈ db ∧ novo.status = "reserva" ∧
      ∀ x ∈ db, x.status = "reserva" → novo.id ≤ x.id :=
  get_reserva_head h

/-- C3, witness for the amended theorem at a concrete store. -/
theorem C3_amended_witness :
    (⟨2, "b", "reserva", 0, none, none, 20⟩ : BotRec) ∈
        ([⟨2, "b", "reserva", 0, none, none, 20⟩,
          ⟨3, "c", "reserva", 0, none, none, 10⟩] : List BotRec) ∧
      (⟨2, "b", "reserva", 0, none, none, 20⟩ : BotRec).status = "reserva" ∧
      ∀ x ∈ ([⟨2, "b", "reserva", 0, none, none, 20⟩,
          ⟨3, "c", "reserva", 0, none, none, 10⟩] : List BotRec),
        x.status = "reserva" → (2 : Nat) ≤ x.id :=
  C3_amended _ _ (by decide)

/-- C6, counterexample: a bot in state "ativo" with 2 consecutive
failures.  `mark_inactive` (deactivation) and the `PUT /api/bots/<id>`
route both change the state out of ACTIVE without resetting the counter,
leaving `failures = 2` with `state ≠ ACTIVE` — the claimed invariant is
not preserved by these state-changing operations. -/
theorem C6_counterexample :
    (mark_inactive ⟨1, "b", "ativo", 2, none, none, 0⟩ none 5).status = "inativo" ∧
    (mark_inactive ⟨1, "b", "ativo", 2, none, none, 0⟩ none 5).failures = 2 ∧
    (update_bot_route ⟨1, "b", "ativo", 2, none, none, 0⟩
        ⟨none, none, none, some "reserva"⟩).status = "reserva" ∧
    (update_bot_route ⟨1, "b", "ativo", 2, none, none, 0⟩
        ⟨none, none, none, some "reserva"⟩).failures = 2 := by
  decide

/-- C6, amended: the monitor-driven transitions do reset the counter —
`mark_reserve` (demotion), `mark_active` (promotion) and
`reset_failures` (any RECOVERED outcome, including in the sweep body) all
set it to 0 — but `mark_inactive` (deactivation) and the API status
update leave the counter untouched, so the invariant `state ≠ ACTIVE →
failures = 0` is not preserved by every state-changing operation. -/
theorem C6_amended (b : BotRec) (now : Nat) (r : Option String)
    (d : UpdatePayload) (db : List BotRec) :
    (mark_reserve b now).failures = 0 ∧
    (mark_active b now).failures = 0 ∧
    (reset_failures b now).failures = 0 ∧
    (mark_inactive b r now).failures = b.failures ∧
    (update_bot_route b d).failures = b.failures ∧
    (∀ (in_grace : Bool) (threshold : Nat),
      ∀ x ∈ (sweep_step db b true in_grace threshold now).1,
        x.id = b.id → x.failures = 0) := by
  refine ⟨rfl, rfl, rfl, rfl, rfl, ?_⟩
  intro in_grace threshold x hx hxid
  simp only [sweep_step, if_pos] at hx
  rcases mem_update_cases hx with ⟨y, _, ⟨_, rfl⟩ | ⟨hne, rfl⟩⟩
  · rfl
  · exact absurd hxid hne

/-- C6, witness for the amended theorem: the RECOVERED branch of the
sweep resets the counter of the checked bot to 0. -/
theorem C6_amended_witness :
    (reset_failures ⟨1, "b", "ativo", 2, none, none, 0⟩ 5).failures = 0 :=
  (C6_amended ⟨1, "b", "ativo", 2, none, none, 0⟩ 5 none ⟨none, none, none, none⟩
      [⟨1, "b", "ativo", 2, none, none, 0⟩]).2.2.2.2.2 false 3
    (reset_failures ⟨1, "b", "ativo", 2, none, none, 0⟩ 5) (by decide) rfl

lemma confirm_extra_ok_iff (l : List Diag) (last : Diag) :
    (confirm_extra l last).decision_ok = true ↔ ∃ d ∈ l, d.decision_ok = true := by
  induction l generalizing last with
  | nil => simp [confirm_extra, force_down]
  | cons d rest ih =>
    by_cases hd : d.decision_ok = true
    · simp [confirm_extra, hd]
    · simp only [confirm_extra, if_neg hd, ih]
      simp [hd]

lemma confirm_extra_all_fail (l : List Diag) (last : Diag)
    (h : ∀ d ∈ l, d.decision_ok = false) :
    confirm_extra l last = force_down (l.getLastD last) := by
  induction l generalizing last with
  | nil => rfl
  | cons d rest ih =>
    have hd : d.decision_ok = false := h d (List.mem_cons_self _ _)
    simp only [confirm_extra, hd, Bool.false_eq_true, if_false, List.getLastD_cons]
    exact ih d (fun x hx => h x (List.mem_cons_of_mem _ hx))

/-- C4: the confirmation protocol of `app.diagnosticar_bot`.
(i) A passing first pass is returned unchanged, with no further passes.
(ii) A failing first pass followed by a passing second pass yields that
second (healthy) report.  (iii) The final verdict is healthy exactly when
some pass (first, second, or an extra round) passed.  (iv) When every
pass fails, the returned report is the last one produced, with its
`decision_ok` forced to false (CONFIRMED_DOWN).  (v) A healthy final
verdict drives the sweep's reset branch, so the failure counter is reset
rather than incremented — a transient FAIL followed by an OK within the
window never increments the counter. -/
theorem C4_confirmation (p1 p2 : Diag) (extras : List Diag) :
    (p1.decision_ok = true → diagnosticar_bot p1 p2 extras = p1) ∧
    (p1.decision_ok = false → p2.decision_ok = true →
      diagnosticar_bot p1 p2 extras = p2) ∧
    ((diagnosticar_bot p1 p2 extras).decision_ok = true ↔
      p1.decision_ok = true ∨ p2.decision_ok = true ∨
        ∃ d ∈ extras, d.decision_ok = true) ∧
    (p1.decision_ok = false → p2.decision_ok = false →
      (∀ d ∈ extras, d.decision_ok = false) →
      diagnosticar_bot p1 p2 extras = force_down (extras.getLastD p2)) ∧
    (∀ (db : List BotRec) (b : BotRec) (in_grace : Bool) (threshold now : Nat),
      (diagnosticar_bot p1 p2 extras).decision_ok = true →
      (sweep_step db b (diagnosticar_bot p1 p2 extras).decision_ok
          in_grace threshold now).1 =
        update_bot_in_db db b.id (fun x => reset_failures x now)) := by
  refine ⟨?_, ?_, ?_, ?_, ?_⟩
  · intro h1
    simp [diagnosticar_bot, h1]
  · intro h1 h2
    simp [diagnosticar_bot, h1, h2]
  · by_cases h1 : p1.decision_ok = true
    · simp [diagnosticar_bot, h1]
    · by_cases h2 : p2.decision_ok = true
      · simp [diagnosticar_bot, h1, h2]
      · simp only [diagnosticar_bot, if_neg h1, if_neg h2]
        rw [confirm_extra_ok_iff]
        simp [h1, h2]
  · intro h1 h2 hall
    simp only [diagnosticar_bot, h1, h2, Bool.false_eq_true, if_false]
    exact confirm_extra_all_fail extras p2 hall
  · intro db b in_grace threshold now hok
    simp [sweep_step, hok]

/-- C4, witness: a transient failure on the first pass followed by a
passing second pass yields the second, healthy report. -/
theorem C4_confirmation_witness :
    diagnosticar_bot ⟨false, 1⟩ ⟨true, 2⟩ [] = ⟨true, 2⟩ :=
  (C4_confirmation ⟨false, 1⟩ ⟨true, 2⟩ []).2.1 rfl rfl

/-- C5, counterexample to the cooldown policy.  The source's alert gate
fires whenever the failure count differs from the last-seen count or
equals the threshold; it never reads the stored last-alert timestamp.
With a failure confirmed on every 1-minute sweep for 45 minutes (failure
counts 1..45, threshold not reached), the source sends 45 down alerts
while the claim's cooldown policy (cooldown 1800 s) sends exactly 2 — and
already the second consecutive failure (count 2, threshold 3, one minute
after the first alert, well inside the cooldown) re-alerts in the source
although the claimed policy stays silent. -/
theorem C5_counterexample :
    alerts_in_fail_run 100 60 45 1 0 none = 45 ∧
    spec_alerts_in_fail_run 100 1800 60 45 1 0 none = 2 ∧
    should_alert (some ⟨1, some 0⟩) 2 3 = true ∧
    spec_should_alert (some ⟨1, some 0⟩) 2 3 60 1800 = false := by
  decide

lemma alerts_in_fail_run_inv (threshold interval : Nat) (n : Nat) :
    ∀ (k now : Nat) (ts : Option Nat),
      alerts_in_fail_run threshold interval n (k + 1) now (some ⟨k, ts⟩) = n := by
  induction n with
  | zero => intro k now ts; rfl
  | succ m ih =>
    intro k now ts
    have hsa : should_alert (some ⟨k, ts⟩) (k + 1) threshold = true := by
      simp [should_alert]
    simp only [alerts_in_fail_run, hsa, if_true]
    rw [ih (k + 1) (now + interval) (some now)]
    omega

/-- C5, amended: the alert gate of `app.monitor_loop` ignores the stored
last-alert timestamp entirely (no cooldown exists), and because each
failing sweep changes the failure count, a down alert is sent on every
failing sweep of an uninterrupted failure run — `n` alerts over `n`
failing sweeps, for every threshold and sweep interval — not 2. -/
theorem C5_amended :
    (∀ (seen cnt threshold : Nat) (t1 t2 : Option Nat),
      should_alert (some ⟨seen, t1⟩) cnt threshold =
        should_alert (some ⟨seen, t2⟩) cnt threshold) ∧
    (∀ (threshold interval n k now : Nat) (ts : Option Nat),
      alerts_in_fail_run threshold interval n (k + 1) now (some ⟨k, ts⟩) = n) ∧
    (∀ (threshold interval n now : Nat),
      alerts_in_fail_run threshold interval n 1 now none = n) := by
  refine ⟨fun seen cnt threshold t1 t2 => rfl,
    fun threshold interval n k now ts => alerts_in_fail_run_inv threshold interval n k now ts,
    ?_⟩
  intro threshold interval n now
  cases n with
  | zero => rfl
  | succ m =>
    have hsa : should_alert none 1 threshold = true := by simp [should_alert]
    simp only [alerts_in_fail_run, hsa, if_true]
    rw [alerts_in_fail_run_inv threshold interval m 1 (now + interval) (some now)]
    omega

/-- C7, counterexample: a retrieved registration whose URL exactly equals
the expected target, whose only recorded error is ancient (time 100, far
outside a 3600 s window ending at time 1000000) and whose backlog is 0.
None of the claim's three failure conditions holds, yet the source
returns FAIL: it fails on **any** recorded error regardless of recency
(and, dually, it has no URL matching and a hardwired backlog ceiling
of 0). -/
theorem C7_counterexample :
    (check_webhook "tok" (.resp 200 (some (true,
        ⟨"https://t.example/hook", 100, "boom", 0⟩)))).1 = false ∧
    spec_webhook_fail true "https://t.example/hook" 3600 1000000 0
      ⟨"https://t.example/hook", 100, "boom", 0⟩ = false := by
  decide

/-- C7, amended: on a retrieved registration (HTTP 200, body decoded, ok
flag set), `check_webhook` returns OK exactly when a URL is registered,
no error is recorded at all (there is no recency window), and the pending
backlog is exactly 0 (the ceiling is hardwired, not configurable); it
performs no matching of the URL against an expected target.  The raw
registration info is surfaced as the details channel in every one of
these cases, including OK. -/
theorem C7_amended (token : String) (info : WebhookInfo) (h : token ≠ "") :
    ((check_webhook token (.resp 200 (some (true, info)))).1 = true ↔
      info.url ≠ "" ∧ info.last_error_date = 0 ∧ info.pending_update_count = 0) ∧
    (check_webhook token (.resp 200 (some (true, info)))).2.2 = .info info := by
  simp only [check_webhook, if_neg h]
  by_cases hu : info.url = ""
  · simp [hu]
  · by_cases he : info.last_error_date = 0
    · by_cases hp : info.pending_update_count = 0
      · simp [hu, he, hp]
      · simp [hu, he, hp, Nat.pos_of_ne_zero hp]
    · simp [hu, he]

/-- C7, witness: a healthy registration is classified OK with its info
surfaced. -/
theorem C7_amended_witness :
    (check_webhook "tok" (.resp 200 (some (true,
        ⟨"https://u", 0, "", 0⟩)))).1 = true :=
  (C7_amended "tok" ⟨"https://u", 0, "", 0⟩ (by decide)).1.mpr (by decide)

/-- C9, counterexample: a sweep pass of 70 s with a 60 s interval is
followed by a sleep of 1 s in the source (`max(1.0, interval -
elapsed)`), not the claimed 0 s (`max(0, interval - elapsed)`). -/
theorem C9_counterexample :
    sweep_sleep_seconds 60 70 = 1 ∧ spec_sleep_seconds 60 70 = 0 := by
  constructor <;> norm_num [sweep_sleep_seconds, spec_sleep_seconds]

/-- C9, amended: the scheduler sleeps for `max(1, interval - elapsed)`
seconds: at least one second always; exactly `interval - elapsed` when
the pass finished at least one second early; and exactly one second —
not zero — when the pass took at least the whole interval. -/
theorem C9_amended (interval elapsed : Rat) :
    1 ≤ sweep_sleep_seconds interval elapsed ∧
    (elapsed ≤ interval - 1 →
      sweep_sleep_seconds interval elapsed = interval - elapsed) ∧
    (interval ≤ elapsed → sweep_sleep_seconds interval elapsed = 1) ∧
    sweep_sleep_seconds interval elapsed = max 1 (interval - elapsed) := by
  refine ⟨le_max_left _ _, fun h => ?_, fun h => ?_, rfl⟩
  · exact max_eq_right (by linarith)
  · exact max_eq_left (by linarith)

/-- C9, witness: with a 10 s pass under a 60 s interval the sleep is
exactly 50 s. -/
theorem C9_amended_witness : sweep_sleep_seconds 60 10 = 50 := by
  have h := (C9_amended 60 10).2.1 (by norm_num)
  rw [h]
  norm_num

/-- A `getMe` outcome of the kinds the claim lists: raised exception
(timeout / connection failure), non-200 status, malformed body, or a
negative / incomplete decoded body. -/
def token_resp_bad : TokenResp → Bool
  | .exn _ => true
  | .resp status body =>
    status != 200 ||
      (match body with
       | none => true
       | some (okFlag, username) => !okFlag || username == none)

/-- A `sendMessage` outcome of the kinds the claim lists. -/
def probe_resp_bad : ProbeResp → Bool
  | .exn _ => true
  | .resp status body _ =>
    status != 200 ||
      (match body with
       | none => true
       | some ok => !ok)

/-- A `getWebhookInfo` outcome of the kinds the claim lists. -/
def webhook_resp_bad : WebhookResp → Bool
  | .exn _ => true
  | .resp status body =>
    status != 200 ||
      (match body with
       | none => true
       | some (okFlag, _) => !okFlag)

/-- C8, counterexample: the reachability checker does **not** fail on
every non-2xx status — a redirect status 302 on a nonempty target URL is
classified OK (`200 <= status < 400`), where the claim requires a FAIL
verdict for every non-2xx response. -/
theorem C8_counterexample :
    check_link "https://x.example" (.resp 302) = (true, "HTTP 302") := by
  decide

/-- C8, amended: for the credential, probe and webhook checkers every
erroneous remote outcome — raised exception (timeout, connection
failure), non-2xx status, malformed body, negative body — yields the
FAIL verdict; the reachability checker yields FAIL on exceptions and on
statuses outside 200–399, but treats 3xx as OK.  All four checkers are
total functions of the response (no exception escapes the checker
boundary), and the probe checker is only consulted on remote outcomes
when both the credential and the monitoring destination are set. -/
theorem C8_amended (token url chat_id : String)
    (rt : TokenResp) (rp : ProbeResp) (rw : WebhookResp)
    (e : String) (s : Nat) :
    (token_resp_bad rt = true → (check_token token rt).1 = false) ∧
    (probe_resp_bad rp = true → token ≠ "" → chat_id ≠ "" →
      (check_probe token chat_id rp).1 = some false) ∧
    (webhook_resp_bad rw = true → (check_webhook token rw).1 = false) ∧
    ((check_link url (.exn e)).1 = false) ∧
    (s < 200 ∨ 400 ≤ s → (check_link url (.resp s)).1 = false) ∧
    (url ≠ "" → 200 ≤ s → s < 400 → (check_link url (.resp s)).1 = true) := by
  refine ⟨?_, ?_, ?_, ?_, ?_, ?_⟩
  · intro hbad
    by_cases ht : token = ""
    · simp [check_token, ht]
    · rcases rt with msg | ⟨status, body⟩
      · simp [check_token, ht]
      · rcases body with _ | ⟨okFlag, username⟩
        · by_cases hs : status == 200 <;> simp [check_token, ht, hs]
        · simp only [token_resp_bad] at hbad
          by_cases hs : status = 200
          · subst hs
            simp only [bne_self_eq_false, Bool.false_or] at hbad
            rcases username with _ | u
            · cases okFlag <;> simp [check_token, ht]
            · cases okFlag
              · simp [check_token, ht]
              · simp at hbad
          · simp [check_token, ht, hs]
  · intro hbad ht hc
    have hcond : ¬(token = "" ∨ chat_id = "") := by tauto
    rcases rp with msg | ⟨status, body, t⟩
    · simp [check_probe, hcond]
    · simp only [probe_resp_bad] at hbad
      by_cases hs : status = 200
      · subst hs
        simp only [bne_self_eq_false, Bool.false_or] at hbad
        rcases body with _ | ok
        · simp [check_probe, hcond]
        · cases ok
          · simp [check_probe, hcond]
          · simp at hbad
      · simp [check_probe, hcond, hs]
  · intro hbad
    by_cases ht : token = ""
    · simp [check_webhook, ht]
    · rcases rw with msg | ⟨status, body⟩
      · simp [check_webhook, ht]
      · simp only [webhook_resp_bad] at hbad
        by_cases hs : status = 200
        · subst hs
          simp only [bne_self_eq_false, Bool.false_or] at hbad
          rcases body with _ | ⟨okFlag, result⟩
          · simp [check_webhook, ht]
          · cases okFlag
            · simp [check_webhook, ht]
            · simp at hbad
        · simp [check_webhook, ht, hs]
  · by_cases hu : url = "" <;> simp [check_link, hu]
  · intro hs
    by_cases hu : url = ""
    · simp [check_link, hu]
    · have : ¬(200 ≤ s ∧ s < 400) := by omega
      simp [check_link, hu, this]
  · intro hu h1 h2
    simp [check_link, hu, h1, h2]

/-- C8, witness: a timeout in the credential checker, a 500 from the
probe, a malformed webhook body, a connection error and a 500 on the
reachability target all yield FAIL, while a 302 redirect on the target
is OK. -/
theorem C8_amended_witness :
    (check_token "tok" (.exn "timeout") ).1 = false ∧
    (check_probe "tok" "chat" (.resp 500 none "err")).1 = some false ∧
    (check_webhook "tok" (.resp 200 none)).1 = false ∧
    (check_link "https://x.example" (.exn "connection")).1 = false ∧
    (check_link "https://x.example" (.resp 500)).1 = false ∧
    (check_link "https://x.example" (.resp 302)).1 = true := by
  have h := C8_amended "tok" "https://x.example" "chat"
    (.exn "timeout") (.resp 500 none "err") (.resp 200 none)
    "connection" 500
  have h2 := C8_amended "tok" "https://x.example" "chat"
    (.exn "timeout") (.resp 500 none "err") (.resp 200 none)
    "connection" 302
  exact ⟨h.1 (by decide), h.2.1 (by decide) (by decide) (by decide),
    h.2.2.1 (by decide), h.2.2.2.1, h.2.2.2.2.1 (by omega),
    h2.2.2.2.2.2 (by decide) (by omega) (by omega)⟩

/-- C10, counterexample: forced swap of the only bot (id 1, ACTIVE,
2 failures) with an **empty** standby pool.  The claim says the call
answers 409 "no reserve available" with the target left demoted.  In the
source, the re-query after the committed demotion sees the just-demoted
target itself in the reserva list, so the target is promoted straight
back: the call returns ok (from = to = 1) — not 409 — and the store ends
with the bot ACTIVE with counter 0, not with zero ACTIVE entities. -/
theorem C10_counterexample :
    (force_swap [⟨1, "b1", "ativo", 2, none, none, 0⟩] 1 5).1 =
        SwapResult.swapped 1 1 ∧
    (force_swap [⟨1, "b1", "ativo", 2, none, none, 0⟩] 1 5).2 =
        [⟨1, "b1", "ativo", 0, some 5, none, 5⟩] := by
  decide

/-- C10, amended: for an existing target the 409 branch is unreachable
(modulo database failures, which the embedding does not model): after the
committed demotion the reserva re-query always contains the just-demoted
target, so some standby — possibly the target itself, when it has the
lowest id — is promoted, the route answers ok naming the demoted and the
promoted bots, and the promoted row ends ACTIVE with counter 0. -/
theorem C10_amended (db : List BotRec) (bot_id now : Nat) (atual : BotRec)
    (h : db.find? (fun b => b.id == bot_id) = some atual) :
    (force_swap db bot_id now).1 ≠ SwapResult.noReserve ∧
    ∃ novo,
      (get_reserva (update_bot_in_db db bot_id (fun x => mark_reserve x now))).head? =
        some novo ∧
      (force_swap db bot_id now).1 = SwapResult.swapped atual.id novo.id ∧
      ∀ x ∈ (force_swap db bot_id now).2, x.id = novo.id →
        x.status = "ativo" ∧ x.failures = 0 := by
  have hmem : atual ∈ db := List.mem_of_find?_eq_some h
  have hid : atual.id = bot_id := by simpa using List.find?_some h
  have hr : mark_reserve atual now ∈
      update_bot_in_db db bot_id (fun x => mark_reserve x now) := by
    have h2 := mem_update_of_mem (i := bot_id) (f := fun x => mark_reserve x now) hmem
    simpa [hid] using h2
  have hrs : mark_reserve atual now ∈
      sortById ((update_bot_in_db db bot_id (fun x => mark_reserve x now)).filter
        (fun b => b.status == "reserva")) :=
    mem_sortById.mpr (List.mem_filter.mpr ⟨hr, by simp [mark_reserve]⟩)
  rcases hcons : get_reserva (update_bot_in_db db bot_id (fun x => mark_reserve x now))
    with _ | ⟨novo, t⟩
  · have hm : mark_reserve atual now ∈
        get_reserva (update_bot_in_db db bot_id (fun x => mark_reserve x now)) := hrs
    rw [hcons] at hm
    simp at hm
  · have hforce : force_swap db bot_id now =
        (SwapResult.swapped atual.id novo.id,
          update_bot_in_db (update_bot_in_db db bot_id (fun x => mark_reserve x now))
            novo.id (fun x => mark_active x now)) := by
      simp only [force_swap, h, hcons]
    refine ⟨by rw [hforce]; simp, novo, rfl, by rw [hforce], ?_⟩
    intro x hx hxid
    rw [hforce] at hx
    rcases mem_update_cases hx with ⟨y, hy, ⟨hyid, rfl⟩ | ⟨hyne, rfl⟩⟩
    · exact ⟨rfl, rfl⟩
    · exact absurd hxid hyne

/-- C10, witness for the amended theorem at the single-bot store. -/
theorem C10_amended_witness :
    (force_swap [⟨1, "x", "ativo", 2, none, none, 0⟩] 1 5).1 ≠
      SwapResult.noReserve :=
  (C10_amended [⟨1, "x", "ativo", 2, none, none, 0⟩] 1 5
      ⟨1, "x", "ativo", 2, none, none, 0⟩ (by decide)).1

/-- C2, counterexample: store with bot 1 (ACTIVE, 2 failures) and bot 2
(STANDBY), threshold 3, grace elapsed, failing decision for bot 1.  The
failover triggers, but because the reserva re-query runs **after** the
committed demotion and is ordered by id, it returns the just-demoted
bot 1 first, which is promoted straight back: bot 1 ends ACTIVE with
counter 0 and the pre-existing standby bot 2 is not promoted — refuting
"the failed entity's state becomes STANDBY and ... exactly one standby
entity's state becomes ACTIVE". -/
theorem C2_counterexample :
    (sweep_step [⟨1, "b1", "ativo", 2, none, none, 0⟩,
        ⟨2, "b2", "reserva", 0, none, none, 0⟩]
      ⟨1, "b1", "ativo", 2, none, none, 0⟩ false false 3 5).2 = true ∧
    (sweep_step [⟨1, "b1", "ativo", 2, none, none, 0⟩,
        ⟨2, "b2", "reserva", 0, none, none, 0⟩]
      ⟨1, "b1", "ativo", 2, none, none, 0⟩ false false 3 5).1 =
      [⟨1, "b1", "ativo", 0, some 5, none, 5⟩,
       ⟨2, "b2", "reserva", 0, none, none, 0⟩] := by
  decide

/-- C2, amended: (i) the failover branch of the sweep runs exactly when
the decision failed, the startup grace window has elapsed and the
incremented failure count has reached the threshold; (ii) during grace a
failure is still counted and persisted (the checked bot's row gets
`failures + 1`) but no status changes at all; (iii) when the branch runs,
the checked bot is demoted (`mark_reserve`, counter 0) and then the
lowest-id row of the post-demotion reserva pool — which can be the
just-demoted bot itself — is promoted with counter 0, so the checked
bot's final state is STANDBY with counter 0 only if it is not that
lowest-id standby, and ACTIVE with counter 0 otherwise. -/
theorem C2_amended (db : List BotRec) (b : BotRec) (decision in_grace : Bool)
    (threshold now : Nat) :
    ((sweep_step db b decision in_grace threshold now).2 =
      (!decision && !in_grace && decide (threshold ≤ b.failures + 1))) ∧
    (decision = false → in_grace = true →
      ((sweep_step db b decision in_grace threshold now).1.map (fun x => x.status) =
          db.map (fun x => x.status) ∧
        ∀ y ∈ db, y.id = b.id →
          increment_failure y now ∈ (sweep_step db b decision in_grace threshold now).1)) ∧
    (decision = false → in_grace = false → threshold ≤ b.failures + 1 → b ∈ db →
      ∃ novo,
        (get_reserva (update_bot_in_db
            (update_bot_in_db db b.id (fun x => increment_failure x now))
            b.id (fun x => mark_reserve x now))).head? = some novo ∧
        novo.status = "reserva" ∧
        (∀ x ∈ update_bot_in_db
            (update_bot_in_db db b.id (fun x => increment_failure x now))
            b.id (fun x => mark_reserve x now),
          x.status = "reserva" → novo.id ≤ x.id) ∧
        ∀ x ∈ (sweep_step db b decision in_grace threshold now).1,
          (x.id = novo.id → x.status = "ativo" ∧ x.failures = 0) ∧
          (x.id = b.id → x.id ≠ novo.id → x.status = "reserva" ∧ x.failures = 0)) := by
  refine ⟨?_, ?_, ?_⟩
  · cases decision with
    | true => simp [sweep_step]
    | false =>
      cases in_grace with
      | true => simp [sweep_step]
      | false =>
        by_cases hth : threshold ≤ b.failures + 1
        · simp [sweep_step, hth]
        · simp [sweep_step, hth]
  · intro hd hg
    subst hd; subst hg
    constructor
    · exact update_status_map (fun x => rfl)
    · intro y hy hyid
      have h2 := mem_update_of_mem (i := b.id) (f := fun x => increment_failure x now) hy
      simpa [hyid] using h2
  · intro hd hg hth hb
    subst hd; subst hg
    have h1 : increment_failure b now ∈
        update_bot_in_db db b.id (fun x => increment_failure x now) := by
      simpa using mem_update_of_mem (i := b.id) (f := fun x => increment_failure x now) hb
    have h2 : mark_reserve (increment_failure b now) now ∈
        update_bot_in_db (update_bot_in_db db b.id (fun x => increment_failure x now))
          b.id (fun x => mark_reserve x now) := by
      have h3 := mem_update_of_mem (i := b.id) (f := fun x => mark_reserve x now) h1
      simpa [increment_failure] using h3
    have h4 : mark_reserve (increment_failure b now) now ∈
        sortById (((update_bot_in_db
            (update_bot_in_db db b.id (fun x => increment_failure x now))
            b.id (fun x => mark_reserve x now))).filter
          (fun x => x.status == "reserva")) :=
      mem_sortById.mpr (List.mem_filter.mpr ⟨h2, by simp [mark_reserve]⟩)
    rcases hcons : get_reserva (update_bot_in_db
        (update_bot_in_db db b.id (fun x => increment_failure x now))
        b.id (fun x => mark_reserve x now)) with _ | ⟨novo, t⟩
    · have h5 : mark_reserve (increment_failure b now) now ∈
          get_reserva (update_bot_in_db
            (update_bot_in_db db b.id (fun x => increment_failure x now))
            b.id (fun x => mark_reserve x now)) := h4
      rw [hcons] at h5
      simp at h5
    · have hhead : (get_reserva (update_bot_in_db
          (update_bot_in_db db b.id (fun x => increment_failure x now))
          b.id (fun x => mark_reserve x now))).head? = some novo := by
        rw [hcons]
        rfl
      obtain ⟨hnmem, hnst, hnmin⟩ := get_reserva_head hhead
      have hstep : (sweep_step db b false false threshold now).1 =
          update_bot_in_db (update_bot_in_db
              (update_bot_in_db db b.id (fun x => increment_failure x now))
              b.id (fun x => mark_reserve x now))
            novo.id (fun x => mark_active x now) := by
        simp [sweep_step, hth, hcons]
      refine ⟨novo, rfl, hnst, hnmin, ?_⟩
      intro x hx
      rw [hstep] at hx
      constructor
      · intro hxid
        rcases mem_update_cases hx with ⟨y, hy, ⟨hyid, rfl⟩ | ⟨hyne, rfl⟩⟩
        · exact ⟨rfl, rfl⟩
        · exact absurd hxid hyne
      · intro hxb hxn
        rcases mem_update_cases hx with ⟨y, hy, ⟨hyid, rfl⟩ | ⟨hyne, rfl⟩⟩
        · exact absurd (show (mark_active y now).id = novo.id from hyid ▸ rfl) hxn
        · rcases mem_update_cases hy with ⟨z, hz, ⟨hzid, rfl⟩ | ⟨hzne, rfl⟩⟩
          · exact ⟨rfl, rfl⟩
          · exact absurd hxb hzne

/-- C2, witness for the amended theorem: a failing sweep inside the
grace window persists the incremented failure counter of the checked
bot without any swap. -/
theorem C2_amended_witness :
    increment_failure ⟨1, "b1", "ativo", 2, none, none, 0⟩ 5 ∈
      (sweep_step [⟨1, "b1", "ativo", 2, none, none, 0⟩,
          ⟨2, "b2", "reserva", 0, none, none, 0⟩]
        ⟨1, "b1", "ativo", 2, none, none, 0⟩ false true 3 5).1 :=
  ((C2_amended [⟨1, "b1", "ativo", 2, none, none, 0⟩,
        ⟨2, "b2", "reserva", 0, none, none, 0⟩]
      ⟨1, "b1", "ativo", 2, none, none, 0⟩ false true 3 5).2.1 rfl rfl).2
    ⟨1, "b1", "ativo", 2, none, none, 0⟩ (by decide) rfl
